import Mathlib

/-!
Shallow embedding of `llama_index/agent/v1/schema.py` and
`llama_index/ingestion/client/types/transformation_definition.py`,
together with theorems settling the specification claims about them.

Modelling conventions:
* Python `str` is Lean `String`; `Optional[str]` is `Option String`.
* `Dict[str, Any]` is an association list `Dict String Val` where `Val`
  is an opaque type parameter standing for Python `Any`; Python `dict`
  keys are unique, and lookup is first-match association-list lookup.
* `Deque[TaskStep]` is a Lean `List` read FIFO (front = head).
* `BaseMemory` is an external collaborator: a memory value is modelled
  as an opaque reference value of type parameter `Mem`; equality of
  `Mem` values models Python reference identity (`is`).
* Python methods that can raise are `Except`-valued; a `dict` lookup
  miss (`KeyError`, the NotFound-style error of the spec) is
  `Except.error KeyError.notFound`.
* Methods whose Python bodies only read `self` are additionally given
  state-passing variants (`*_run`) returning the post-state, used for
  the frame claims.
-/

/-- Association-list model of a Python `dict` (keys unique, first-match lookup). -/
abbrev Dict (α β : Type) := List (α × β)

namespace LlamaIndexAgent

variable {Mem Val Out : Type}

/-- Embeds `TaskStep` (schema.py): one unit of work within a task run.
Fields: `task_id`, `step_id`, optional `input` (default `None`), the shared
`memory` reference, and the `step_state` mapping carried to the next step. -/
structure TaskStep (Mem Val : Type) where
  task_id : String
  step_id : String
  input : Option String := none
  memory : Mem
  step_state : Dict String Val := []

/-- Embeds `TaskStep.get_next_step` (schema.py): builds the next step,
preserving `task_id`, the `memory` reference and `step_state`, with the
given `step_id` and `input` (default `None`). -/
def TaskStep.get_next_step (self : TaskStep Mem Val) (step_id : String)
    (input : Option String := none) : TaskStep Mem Val :=
  { task_id := self.task_id
    step_id := step_id
    input := input
    memory := self.memory
    step_state := self.step_state }

/-- Embeds `TaskStepOutput` (schema.py): result of executing one `TaskStep`.
`output` is Python `Any`, modelled by the opaque parameter `Out`. -/
structure TaskStepOutput (Mem Val Out : Type) where
  output : Out
  task_step : TaskStep Mem Val
  next_steps : List (TaskStep Mem Val)
  is_last : Bool := false

/-- Construction of a `TaskStepOutput` without supplying `is_last`: the
pydantic field default `is_last=False` applies. -/
def TaskStepOutput.make (output : Out) (task_step : TaskStep Mem Val)
    (next_steps : List (TaskStep Mem Val)) : TaskStepOutput Mem Val Out :=
  { output := output
    task_step := task_step
    next_steps := next_steps
    is_last := false }

/-- Embeds `Task` (schema.py): one full agent run. `step_queue` defaults to
an empty deque, `completed_steps` to an empty list, `extra_state` to an
empty dict; `task_id` defaults to a freshly generated `uuid4` string. -/
structure Task (Mem Val Out : Type) where
  task_id : String
  input : String
  memory : Mem
  step_queue : List (TaskStep Mem Val) := []
  completed_steps : List (TaskStepOutput Mem Val Out) := []
  extra_state : Dict String Val := []

/-- Construction of a `Task` with an explicit `task_id`: the remaining
fields take their declared defaults (empty queue, list and dict). -/
def Task.make (task_id : String) (input : String) (memory : Mem) :
    Task Mem Val Out :=
  { task_id := task_id, input := input, memory := memory }

/-- Construction of a `Task` without an explicit `task_id`.
Modelled from the spec: the `default_factory` calls `str(uuid.uuid4())`,
an external fresh-identifier source (Python stdlib, not in this
repository); it is modelled as a supply `gen` of identifier strings
indexed by the draw count `n`, the spec promising that distinct draws
yield distinct identifiers (`gen` injective). -/
def Task.makeAuto (gen : Nat → String) (n : Nat) (input : String)
    (memory : Mem) : Task Mem Val Out :=
  Task.make (gen n) input memory

/-- A concrete injective identifier supply used to witness theorems about
auto-generated task ids. -/
def idSupply (n : Nat) : String := String.mk (List.replicate n 'u')

/-- The NotFound-style error of a Python `dict` lookup miss (`KeyError`). -/
inductive KeyError where
  | notFound
  deriving DecidableEq

/-- Embeds `AgentState` (schema.py): registry mapping task id to `Task`. -/
structure AgentState (Mem Val Out : Type) where
  task_dict : Dict String (Task Mem Val Out) := []

/-- Embeds `AgentState.get_task` (schema.py): `return self.task_dict[task_id]`;
a missing key raises the NotFound-style `KeyError`. -/
def AgentState.get_task (self : AgentState Mem Val Out) (task_id : String) :
    Except KeyError (Task Mem Val Out) :=
  match self.task_dict.lookup task_id with
  | some task => .ok task
  | none => .error .notFound

/-- Embeds `AgentState.get_completed_steps` (schema.py):
`return self.get_task(task_id).completed_steps`. -/
def AgentState.get_completed_steps (self : AgentState Mem Val Out)
    (task_id : String) : Except KeyError (List (TaskStepOutput Mem Val Out)) :=
  (self.get_task task_id).map (fun task => task.completed_steps)

/-- Embeds `AgentState.get_step_queue` (schema.py):
`return self.get_task(task_id).step_queue`. -/
def AgentState.get_step_queue (self : AgentState Mem Val Out)
    (task_id : String) : Except KeyError (List (TaskStep Mem Val)) :=
  (self.get_task task_id).map (fun task => task.step_queue)

/-- State-passing form of `get_task`: the Python body is a single read of
`self`, with no assignment, so the post-state is the receiver itself. -/
def AgentState.get_task_run (self : AgentState Mem Val Out) (task_id : String) :
    Except KeyError (Task Mem Val Out) × AgentState Mem Val Out :=
  (self.get_task task_id, self)

/-- State-passing form of `get_completed_steps` (read-only body). -/
def AgentState.get_completed_steps_run (self : AgentState Mem Val Out)
    (task_id : String) :
    Except KeyError (List (TaskStepOutput Mem Val Out)) × AgentState Mem Val Out :=
  (self.get_completed_steps task_id, self)

/-- State-passing form of `get_step_queue` (read-only body). -/
def AgentState.get_step_queue_run (self : AgentState Mem Val Out)
    (task_id : String) :
    Except KeyError (List (TaskStep Mem Val)) × AgentState Mem Val Out :=
  (self.get_step_queue task_id, self)

/-- The NotImplemented-style error of the abstract step-engine contract. -/
inductive EngineError where
  | notImplemented
  deriving DecidableEq

/-- Embeds `BaseAgentStepEngine` (schema.py), an abstract base class: each
abstract method is modelled as an optional concrete override; `none`
means no concrete override exists. The two `async` methods are modelled
like the synchronous ones (suspension is irrelevant to the values). -/
structure BaseAgentStepEngine (Mem Val Out : Type) where
  initialize_step_impl :
    Option (Task Mem Val Out → TaskStep Mem Val) := none
  run_step_impl :
    Option (TaskStep Mem Val → Task Mem Val Out → TaskStepOutput Mem Val Out) := none
  arun_step_impl :
    Option (TaskStep Mem Val → Task Mem Val Out → TaskStepOutput Mem Val Out) := none
  stream_step_impl :
    Option (TaskStep Mem Val → Task Mem Val Out → TaskStepOutput Mem Val Out) := none
  astream_step_impl :
    Option (TaskStep Mem Val → Task Mem Val Out → TaskStepOutput Mem Val Out) := none

/-- Invoking `initialize_step`: dispatches to the concrete override when one
exists, otherwise fails with the NotImplemented-style error (abstract
method without a concrete override). -/
def BaseAgentStepEngine.initialize_step (self : BaseAgentStepEngine Mem Val Out)
    (task : Task Mem Val Out) : Except EngineError (TaskStep Mem Val) :=
  match self.initialize_step_impl with
  | some f => .ok (f task)
  | none => .error .notImplemented

/-- Invoking `run_step`: dispatch to the override or fail. -/
def BaseAgentStepEngine.run_step (self : BaseAgentStepEngine Mem Val Out)
    (step : TaskStep Mem Val) (task : Task Mem Val Out) :
    Except EngineError (TaskStepOutput Mem Val Out) :=
  match self.run_step_impl with
  | some f => .ok (f step task)
  | none => .error .notImplemented

/-- Invoking `arun_step`: dispatch to the override or fail. -/
def BaseAgentStepEngine.arun_step (self : BaseAgentStepEngine Mem Val Out)
    (step : TaskStep Mem Val) (task : Task Mem Val Out) :
    Except EngineError (TaskStepOutput Mem Val Out) :=
  match self.arun_step_impl with
  | some f => .ok (f step task)
  | none => .error .notImplemented

/-- Invoking `stream_step`: dispatch to the override or fail. -/
def BaseAgentStepEngine.stream_step (self : BaseAgentStepEngine Mem Val Out)
    (step : TaskStep Mem Val) (task : Task Mem Val Out) :
    Except EngineError (TaskStepOutput Mem Val Out) :=
  match self.stream_step_impl with
  | some f => .ok (f step task)
  | none => .error .notImplemented

/-- Invoking `astream_step`: dispatch to the override or fail. -/
def BaseAgentStepEngine.astream_step (self : BaseAgentStepEngine Mem Val Out)
    (step : TaskStep Mem Val) (task : Task Mem Val Out) :
    Except EngineError (TaskStepOutput Mem Val Out) :=
  match self.astream_step_impl with
  | some f => .ok (f step task)
  | none => .error .notImplemented

/-- Concrete values used by witness theorems. -/
def memW : Nat := 0

/-- A concrete `Task` registered under the id that names it. -/
def taskW : Task Nat Nat Nat := Task.make "t1" "hello" memW

/-- A concrete `AgentState` holding `taskW` under key `"t1"`. -/
def stateW : AgentState Nat Nat Nat := { task_dict := [("t1", taskW)] }

/-- A concrete `TaskStep` used in counterexample and witness theorems. -/
def stepW : TaskStep Nat Nat :=
  { task_id := "t1", step_id := "s1", input := none, memory := memW,
    step_state := [] }

/-- A concrete `TaskStepOutput` with `is_last` true and a non-empty
`next_steps`: the source accepts this construction (no validator links
the two fields). -/
def outW : TaskStepOutput Nat Nat Nat :=
  { output := 7, task_step := stepW, next_steps := [stepW], is_last := true }

/-- A concrete engine with no concrete overrides. -/
def engineW : BaseAgentStepEngine Nat Nat Nat := {}

end LlamaIndexAgent

namespace LlamaIndexIngestion

/-- Modelled from the spec: `ConfigurableTransformationNames` is an enum-like
identifier from a fixed registry of configurable transformation names; its
defining module is not part of the provided source, so a value is modelled
by its serialized string representation. -/
abbrev ConfigurableTransformationNames := String

/-- Modelled from the spec: `TransformationCategories` is an enum-like
classification used to group transformations; its defining module is not
part of the provided source, so a value is modelled by its serialized
string representation. -/
abbrev TransformationCategories := String

/-- Embeds `TransformationDefinition`
(transformation_definition.py): a serializable record with fields `name`,
`label` and `transformation_category`, all three declared without defaults
(required), and none declaring an alias. -/
structure TransformationDefinition where
  name : ConfigurableTransformationNames
  label : String
  transformation_category : TransformationCategories

/-- Per-field serialization metadata of the pydantic model: attribute name,
declared alias (none is declared on any field of `TransformationDefinition`,
so the alias defaults to the attribute name), serialized value, and whether
the field was explicitly set at construction. -/
structure FieldInfo where
  attr_name : String
  aliasName : Option String
  value : String
  isSet : Bool

/-- Effective serialization options of one export call. -/
structure SerOptions where
  by_alias : Bool
  exclude_unset : Bool

/-- Keyword arguments passed by the caller of `json`/`dict`; `none` means
the keyword was not passed. -/
structure SerKwargs where
  by_alias : Option Bool := none
  exclude_unset : Option Bool := none

/-- Embeds the kwargs merge of `TransformationDefinition.json` and `.dict`:
the literal dict update applies the defaults `by_alias=True` and
`exclude_unset=True`, with caller kwargs overriding them. -/
def SerKwargs.withDefaults (k : SerKwargs) : SerOptions :=
  { by_alias := k.by_alias.getD true
    exclude_unset := k.exclude_unset.getD true }

/-- Modelled from the spec: `pydantic.BaseModel.dict` (external library, not
in the provided source) — emits the model's fields in declaration order,
skipping fields that were not explicitly set when `exclude_unset` holds, and
keying each emitted field by its alias (which defaults to the attribute
name) when `by_alias` holds. -/
def baseModelDict (opts : SerOptions) (fields : List FieldInfo) :
    Dict String String :=
  (fields.filter (fun f => !opts.exclude_unset || f.isSet)).map
    (fun f =>
      (if opts.by_alias then f.aliasName.getD f.attr_name else f.attr_name,
        f.value))

/-- The field metadata of a `TransformationDefinition` instance: all three
fields are required, so every successful construction explicitly sets each
of them (`isSet` true), and no field declares an alias. -/
def TransformationDefinition.fields (d : TransformationDefinition) :
    List FieldInfo :=
  [ { attr_name := "name", aliasName := none, value := d.name, isSet := true },
    { attr_name := "label", aliasName := none, value := d.label,
      isSet := true },
    { attr_name := "transformation_category", aliasName := none,
      value := d.transformation_category, isSet := true } ]

/-- Embeds `TransformationDefinition.dict`: merges the exclude-unset and
by-alias defaults into the caller kwargs and delegates to the base-model
mapping export. -/
def TransformationDefinition.dict (d : TransformationDefinition)
    (k : SerKwargs) : Dict String String :=
  baseModelDict k.withDefaults d.fields

/-- Renders a string-valued mapping as JSON object text. -/
def renderJson (m : Dict String String) : String :=
  "\x7b" ++
    String.intercalate ", "
      (m.map (fun p => "\"" ++ p.1 ++ "\": \"" ++ p.2 ++ "\"")) ++
    "\x7d"

/-- Embeds `TransformationDefinition.json`: same kwargs merge as `dict`,
producing the canonical text rendering of the exported mapping. -/
def TransformationDefinition.json (d : TransformationDefinition)
    (k : SerKwargs) : String :=
  renderJson (d.dict k)

/-- The error raised on attribute assignment to a frozen pydantic model. -/
inductive MutationError where
  | frozenInstance
  deriving DecidableEq

/-- Modelled from the spec: attribute assignment on a pydantic model whose
`Config` sets `frozen = True` (pydantic machinery, external to the provided
source) fails for every field — the record is immutable after
construction. -/
def TransformationDefinition.setAttr (_ : TransformationDefinition)
    (_ : String) (_ : String) : Except MutationError TransformationDefinition :=
  .error .frozenInstance

/-- The error raised when a required field is missing at validation. -/
inductive ValidationError where
  | missingField
  deriving DecidableEq

/-- Modelled from the spec: pydantic deserialization (`parse_obj`, external
to the provided source) of a `TransformationDefinition` mapping — reads each
required field by its external key (the alias, defaulting to the attribute
name), failing when one is absent. -/
def TransformationDefinition.parse_obj (m : Dict String String) :
    Except ValidationError TransformationDefinition :=
  match m.lookup "name", m.lookup "label",
      m.lookup "transformation_category" with
  | some n, some l, some c =>
      .ok { name := n, label := l, transformation_category := c }
  | _, _, _ => .error .missingField

/-- A concrete fully-populated `TransformationDefinition` for witnesses. -/
def tdW : TransformationDefinition :=
  { name := "SPLITTER", label := "Splitter", transformation_category := "TEXT" }

end LlamaIndexIngestion

namespace LlamaIndexAgent

variable {Mem Val Out : Type}

/-- Claim C1: if `task_dict` maps `t` to a task `T` then `get_task t`
returns exactly `T`; if `t` is absent, `get_task t` fails with the
NotFound-style error; and these are the only two outcomes. -/
theorem get_task_spec (s : AgentState Mem Val Out) (t : String) :
    (∀ T, s.task_dict.lookup t = some T → s.get_task t = .ok T) ∧
    (s.task_dict.lookup t = none → s.get_task t = .error .notFound) ∧
    ((∃ T, s.task_dict.lookup t = some T ∧ s.get_task t = .ok T) ∨
      (s.task_dict.lookup t = none ∧ s.get_task t = .error .notFound)) := by
  refine ⟨fun T hT => ?_, fun h => ?_, ?_⟩
  · simp [AgentState.get_task, hT]
  · simp [AgentState.get_task, h]
  · cases h : s.task_dict.lookup t with
    | some T => exact Or.inl ⟨T, rfl, by simp [AgentState.get_task, h]⟩
    | none => exact Or.inr ⟨rfl, by simp [AgentState.get_task, h]⟩

/-- Witness for C1: on the concrete registry `stateW`, the task registered
under `"t1"` is returned unchanged. -/
theorem get_task_spec_witness : stateW.get_task "t1" = .ok taskW :=
  (get_task_spec stateW "t1").1 taskW rfl

/-- Claim C2: `get_next_step` (with `input` left at its default) preserves
`task_id`, the memory reference (modelled by equality of the opaque
reference value) and `step_state`, sets `step_id` to the given id, and sets
`input` to `none`; these five fields are all the fields of a `TaskStep`. -/
theorem get_next_step_spec (s : TaskStep Mem Val) (i : String) :
    (s.get_next_step i).task_id = s.task_id ∧
    (s.get_next_step i).step_id = i ∧
    (s.get_next_step i).input = none ∧
    (s.get_next_step i).step_state = s.step_state ∧
    (s.get_next_step i).memory = s.memory :=
  ⟨rfl, rfl, rfl, rfl, rfl⟩

/-- Claim C3: `get_completed_steps` and `get_step_queue` return the
registered task's `completed_steps` and `step_queue` respectively, and
propagate exactly the error produced by `get_task` when the id is absent. -/
theorem delegation_spec (s : AgentState Mem Val Out) (t : String) :
    (∀ T, s.task_dict.lookup t = some T →
      s.get_completed_steps t = .ok T.completed_steps ∧
      s.get_step_queue t = .ok T.step_queue) ∧
    (s.task_dict.lookup t = none →
      s.get_completed_steps t = .error .notFound ∧
      s.get_step_queue t = .error .notFound) ∧
    (∀ e, s.get_task t = .error e →
      s.get_completed_steps t = .error e ∧ s.get_step_queue t = .error e) := by
  refine ⟨fun T hT => ?_, fun h => ?_, fun e he => ?_⟩
  · constructor <;>
      simp [AgentState.get_completed_steps, AgentState.get_step_queue,
        AgentState.get_task, hT, Except.map]
  · constructor <;>
      simp [AgentState.get_completed_steps, AgentState.get_step_queue,
        AgentState.get_task, h, Except.map]
  · constructor <;>
      simp [AgentState.get_completed_steps, AgentState.get_step_queue, he,
        Except.map]

/-- Witness for C3: on the concrete registry `stateW`, both accessors return
the empty collections of the freshly constructed registered task. -/
theorem delegation_spec_witness :
    stateW.get_completed_steps "t1" = .ok [] ∧
    stateW.get_step_queue "t1" = .ok [] :=
  (delegation_spec stateW "t1").1 taskW rfl

/-- Claim C4: a `Task` constructed with only `input` and `memory` supplied
(see `Task.makeAuto`) has empty `completed_steps`, empty `step_queue` and
empty `extra_state`. -/
theorem fresh_task_empty (gen : Nat → String) (n : Nat) (input : String)
    (memory : Mem) :
    (Task.makeAuto gen n input memory : Task Mem Val Out).completed_steps =
        [] ∧
    (Task.makeAuto gen n input memory : Task Mem Val Out).step_queue = [] ∧
    (Task.makeAuto gen n input memory : Task Mem Val Out).extra_state = [] :=
  ⟨rfl, rfl, rfl⟩

/-- Counterexample for C5: `outW` is a constructible `TaskStepOutput` whose
`is_last` is true while `next_steps` is non-empty — the source enforces no
link between the two fields. -/
theorem is_last_with_next_steps : outW.is_last = true ∧ outW.next_steps ≠ [] :=
  ⟨rfl, by simp [outW]⟩

/-- Claim C5 (amended): `is_last` defaults to false when not supplied at
construction; the source does not enforce emptiness of `next_steps` when
`is_last` is true. -/
theorem is_last_default_false (output : Out) (task_step : TaskStep Mem Val)
    (next_steps : List (TaskStep Mem Val)) :
    (TaskStepOutput.make output task_step next_steps).is_last = false :=
  rfl

/-- Helper: the concrete identifier supply is injective. -/
theorem idSupply_injective : Function.Injective idSupply := by
  intro a b h
  simpa [idSupply] using congrArg (fun s => s.data.length) h

/-- Claim C6: two `Task`s constructed without explicit `task_id` draw their
ids from the fresh-identifier supply at distinct draw counts, hence their
ids differ (the supply's injectivity models the spec's freshness promise
for `uuid.uuid4`). -/
theorem auto_task_id_unique (gen : Nat → String)
    (hgen : Function.Injective gen) (n m : Nat) (hnm : n ≠ m)
    (in1 in2 : String) (m1 m2 : Mem) :
    (Task.makeAuto gen n in1 m1 : Task Mem Val Out).task_id ≠
      (Task.makeAuto gen m in2 m2 : Task Mem Val Out).task_id := by
  intro h
  exact hnm (hgen h)

/-- Witness for C6: with the concrete injective supply, the first two
auto-constructed tasks receive distinct ids. -/
theorem auto_task_id_unique_witness :
    (Task.makeAuto idSupply 0 "a" memW : Task Nat Nat Nat).task_id ≠
      (Task.makeAuto idSupply 1 "b" memW : Task Nat Nat Nat).task_id :=
  auto_task_id_unique idSupply idSupply_injective 0 1 (by decide) "a" "b"
    memW memW

/-- Claim C9: on an engine with no concrete override for any of the five
abstract step-engine methods, each invocation fails with the
NotImplemented-style error. -/
theorem abstract_methods_fail (e : BaseAgentStepEngine Mem Val Out)
    (h1 : e.initialize_step_impl = none) (h2 : e.run_step_impl = none)
    (h3 : e.arun_step_impl = none) (h4 : e.stream_step_impl = none)
    (h5 : e.astream_step_impl = none) (step : TaskStep Mem Val)
    (task : Task Mem Val Out) :
    e.initialize_step task = .error .notImplemented ∧
    e.run_step step task = .error .notImplemented ∧
    e.arun_step step task = .error .notImplemented ∧
    e.stream_step step task = .error .notImplemented ∧
    e.astream_step step task = .error .notImplemented := by
  simp [BaseAgentStepEngine.initialize_step, BaseAgentStepEngine.run_step,
    BaseAgentStepEngine.arun_step, BaseAgentStepEngine.stream_step,
    BaseAgentStepEngine.astream_step, h1, h2, h3, h4, h5]

/-- Witness for C9: the concrete override-free engine fails on all five
methods at concrete inputs. -/
theorem abstract_methods_fail_witness :
    engineW.initialize_step taskW = .error .notImplemented ∧
    engineW.run_step stepW taskW = .error .notImplemented ∧
    engineW.arun_step stepW taskW = .error .notImplemented ∧
    engineW.stream_step stepW taskW = .error .notImplemented ∧
    engineW.astream_step stepW taskW = .error .notImplemented :=
  abstract_methods_fail engineW rfl rfl rfl rfl rfl stepW taskW

/-- Claim C10: the three accessors are read-only — in state-passing form the
post-state equals the receiver, so `task_dict` and every task stored under
any id are unchanged, whether the lookup succeeds or fails. -/
theorem accessors_read_only (s : AgentState Mem Val Out) (t : String) :
    (s.get_task_run t).2 = s ∧
    (s.get_completed_steps_run t).2 = s ∧
    (s.get_step_queue_run t).2 = s ∧
    (∀ u, ((s.get_task_run t).2).task_dict.lookup u = s.task_dict.lookup u) :=
  ⟨rfl, rfl, rfl, fun _ => rfl⟩

end LlamaIndexAgent

namespace LlamaIndexIngestion

/-- Claim C7: with no caller kwargs, the exported mapping contains exactly
the explicitly-set fields keyed by their alias (which defaults to the
attribute name, since no field of `TransformationDefinition` declares one),
the canonical text is the rendering of that mapping, and every attempted
field mutation fails on the frozen record. -/
theorem transformation_definition_serialization (d : TransformationDefinition) :
    (∀ p ∈ d.dict {}, ∃ f ∈ d.fields, f.isSet = true ∧
      p.1 = f.aliasName.getD f.attr_name ∧ p.2 = f.value) ∧
    (d.dict {} = [("name", d.name), ("label", d.label),
      ("transformation_category", d.transformation_category)]) ∧
    (d.json {} = renderJson (d.dict {})) ∧
    (∀ a v, d.setAttr a v = .error .frozenInstance) := by
  refine ⟨fun p hp => ?_, rfl, rfl, fun _ _ => rfl⟩
  have hd : d.dict {} = [("name", d.name), ("label", d.label),
      ("transformation_category", d.transformation_category)] := rfl
  rw [hd] at hp
  simp only [List.mem_cons, List.not_mem_nil, or_false] at hp
  rcases hp with rfl | rfl | rfl
  · exact ⟨⟨"name", none, d.name, true⟩, List.Mem.head _, rfl, rfl, rfl⟩
  · exact ⟨⟨"label", none, d.label, true⟩,
      List.Mem.tail _ (List.Mem.head _), rfl, rfl, rfl⟩
  · exact ⟨⟨"transformation_category", none, d.transformation_category, true⟩,
      List.Mem.tail _ (List.Mem.tail _ (List.Mem.head _)), rfl, rfl, rfl⟩

/-- Witness for C7: on the concrete record `tdW`, the exported entry keyed
`"name"` comes from an explicitly-set field under its alias. -/
theorem transformation_definition_serialization_witness :
    ∃ f ∈ tdW.fields, f.isSet = true ∧
      ("name" : String) = f.aliasName.getD f.attr_name ∧
      ("SPLITTER" : String) = f.value :=
  (transformation_definition_serialization tdW).1 ("name", "SPLITTER")
    (by decide)

/-- Claim C8: deserializing the serialization of a fully-populated
`TransformationDefinition` reproduces an equal record. -/
theorem serialize_roundtrip (n l c : String) :
    TransformationDefinition.parse_obj
        (TransformationDefinition.dict
          { name := n, label := l, transformation_category := c } {}) =
      .ok { name := n, label := l, transformation_category := c } :=
  rfl

end LlamaIndexIngestion
